import Mathlib

set_option linter.all false

/-!
Shallow embedding of the CodeThreat CLI core: configuration resolution
(src/config/config.ts), the scan submission / polling orchestrator
(the client-side-polling api client and the legacy src/lib/api-client.ts),
and the CI threshold decision of src/commands/scan.ts.

JavaScript truthiness is modelled explicitly: a string is falsy exactly
when empty, a number exactly when zero.  Environment variables holding
numbers (CT_TIMEOUT, CT_POLL_INTERVAL, CT_MAX_VIOLATIONS) are modelled as
the integer their string parses to, and as none when unset or empty.
-/

/-- JavaScript `a || b` where `a` is an optional string and `b` a string:
an unset variable and the empty string are both falsy. -/
def jsOrStr : Option String → String → String
  | some s, d => if s = "" then d else s
  | none, d => d

/-- JavaScript `a || b` for two optional strings. -/
def jsOrOptStr : Option String → Option String → Option String
  | some s, b => if s = "" then b else some s
  | none, b => b

/-- JavaScript `a || b` for an optional number: zero is falsy. -/
def jsOrNat : Option Nat → Nat → Nat
  | some n, d => if n = 0 then d else n
  | none, d => d

/-- The CLIConfig interface of src/config/config.ts. -/
structure CLIConfig where
  serverUrl : String
  apiKey : Option String
  organizationId : Option String
  defaultScanTypes : List String
  defaultBranch : String
  defaultTimeout : Int
  defaultPollInterval : Int
  defaultFormat : String
  outputDir : String
  failOnHigh : Bool
  failOnCritical : Bool
  maxViolations : Option Int
  verbose : Bool
  colors : Bool
  deriving Repr, DecidableEq

/-- Process environment variables read by getEnvConfig and loadConfig.
String variables are `Option String` (`none` = unset); the numeric
variables are modelled as the integer their string parses to. -/
structure Env where
  CT_SERVER_URL : Option String := none
  CT_PRODUCTION_URL : Option String := none
  CT_API_KEY : Option String := none
  CT_ORG_ID : Option String := none
  CT_ORG_SLUG : Option String := none
  CT_DEFAULT_SCAN_TYPES : Option String := none
  CT_DEFAULT_BRANCH : Option String := none
  CT_TIMEOUT : Option Int := none
  CT_POLL_INTERVAL : Option Int := none
  CT_DEFAULT_FORMAT : Option String := none
  CT_OUTPUT_DIR : Option String := none
  CT_FAIL_ON_HIGH : Option String := none
  CT_FAIL_ON_CRITICAL : Option String := none
  CT_MAX_VIOLATIONS : Option Int := none
  CT_VERBOSE : Option String := none
  CT_COLORS : Option String := none
  deriving Repr, DecidableEq

/-- Content of the saved credentials file as read by loadSavedCredentials. -/
structure SavedCredentials where
  apiKey : Option String := none
  serverUrl : Option String := none
  deriving Repr, DecidableEq

/-- getEnvConfig (src/config/config.ts lines 295-318): a full CLIConfig
built from environment variables, saved credentials and the built-in
defaults of that function. -/
def getEnvConfig (env : Env) (saved : SavedCredentials) : CLIConfig :=
  { serverUrl := jsOrStr env.CT_SERVER_URL
      (jsOrStr saved.serverUrl
        (jsOrStr env.CT_PRODUCTION_URL "https://api.codethreat.com"))
    apiKey := jsOrOptStr env.CT_API_KEY saved.apiKey
    organizationId := env.CT_ORG_ID
    defaultScanTypes := (jsOrStr env.CT_DEFAULT_SCAN_TYPES "sast,sca,secrets").splitOn ","
    defaultBranch := jsOrStr env.CT_DEFAULT_BRANCH "main"
    defaultTimeout := env.CT_TIMEOUT.getD 1800
    defaultPollInterval := env.CT_POLL_INTERVAL.getD 10
    defaultFormat := jsOrStr env.CT_DEFAULT_FORMAT "json"
    outputDir := jsOrStr env.CT_OUTPUT_DIR "./codethreat-results"
    failOnHigh := env.CT_FAIL_ON_HIGH == some "true"
    failOnCritical := env.CT_FAIL_ON_CRITICAL != some "false"
    maxViolations := env.CT_MAX_VIOLATIONS
    verbose := env.CT_VERBOSE == some "true"
    colors := env.CT_COLORS != some "false" }

/-- A parsed YAML configuration file: each CLIConfig field optionally
present.  The object spread in loadConfig overrides exactly the fields the
file sets. -/
structure FileConfig where
  serverUrl : Option String := none
  apiKey : Option String := none
  organizationId : Option String := none
  defaultScanTypes : Option (List String) := none
  defaultBranch : Option String := none
  defaultTimeout : Option Int := none
  defaultPollInterval : Option Int := none
  defaultFormat : Option String := none
  outputDir : Option String := none
  failOnHigh : Option Bool := none
  failOnCritical : Option Bool := none
  maxViolations : Option Int := none
  verbose : Option Bool := none
  colors : Option Bool := none
  deriving Repr, DecidableEq

/-- New value when present, otherwise the old one (object spread on one
optional field). -/
def overrideOpt {α : Type} (newVal : Option α) (old : Option α) : Option α :=
  match newVal with
  | some v => some v
  | none => old

/-- The object spread of loadConfig (src/config/config.ts lines 349-352):
fields the file sets override the current config field-by-field. -/
def mergeFileConfig (c : CLIConfig) (f : FileConfig) : CLIConfig :=
  { serverUrl := f.serverUrl.getD c.serverUrl
    apiKey := overrideOpt f.apiKey c.apiKey
    organizationId := overrideOpt f.organizationId c.organizationId
    defaultScanTypes := f.defaultScanTypes.getD c.defaultScanTypes
    defaultBranch := f.defaultBranch.getD c.defaultBranch
    defaultTimeout := f.defaultTimeout.getD c.defaultTimeout
    defaultPollInterval := f.defaultPollInterval.getD c.defaultPollInterval
    defaultFormat := f.defaultFormat.getD c.defaultFormat
    outputDir := f.outputDir.getD c.outputDir
    failOnHigh := f.failOnHigh.getD c.failOnHigh
    failOnCritical := f.failOnCritical.getD c.failOnCritical
    maxViolations := overrideOpt f.maxViolations c.maxViolations
    verbose := f.verbose.getD c.verbose
    colors := f.colors.getD c.colors }

/-- Env override for apiKey (loadConfig line 363, a truthiness test). -/
def envOverrideApiKey (env : Env) (c : CLIConfig) : CLIConfig :=
  match env.CT_API_KEY with
  | some s => if s = "" then c else { c with apiKey := some s }
  | none => c

/-- Env override for serverUrl (loadConfig line 364). -/
def envOverrideServerUrl (env : Env) (c : CLIConfig) : CLIConfig :=
  match env.CT_SERVER_URL with
  | some s => if s = "" then c else { c with serverUrl := s }
  | none => c

/-- Env override for organizationId (loadConfig line 365). -/
def envOverrideOrgId (env : Env) (c : CLIConfig) : CLIConfig :=
  match env.CT_ORG_ID with
  | some s => if s = "" then c else { c with organizationId := some s }
  | none => c

/-- Env override for verbose (loadConfig line 366: only the exact string
true turns it on). -/
def envOverrideVerbose (env : Env) (c : CLIConfig) : CLIConfig :=
  if env.CT_VERBOSE == some "true" then { c with verbose := true } else c

/-- The environment overrides applied after the file merge (loadConfig
lines 362-366): only apiKey, serverUrl, organizationId and verbose are
re-applied on top of the file layer. -/
def applyEnvOverrides (env : Env) (c : CLIConfig) : CLIConfig :=
  envOverrideVerbose env (envOverrideOrgId env (envOverrideServerUrl env (envOverrideApiKey env c)))

/-- The four validation failures thrown by validateConfig
(src/config/config.ts lines 427-443); this is the ConfigurationError kind
of the error taxonomy. -/
inductive ConfigError
  | serverUrlRequired
  | serverUrlScheme
  | timeoutOutOfBounds
  | pollIntervalOutOfBounds
  deriving Repr, DecidableEq

/-- JS String.prototype.startsWith: the characters of p are a prefix of
the characters of s, stated over the character lists so that evaluation
is structural. -/
def strStartsWith (s p : String) : Bool :=
  List.isPrefixOf p.data s.data

/-- validateConfig (src/config/config.ts lines 427-443), throwing at the
first violated check. -/
def validateConfig (c : CLIConfig) : Except ConfigError Unit :=
  if c.serverUrl = "" then Except.error ConfigError.serverUrlRequired
  else if ¬ strStartsWith c.serverUrl "http" then Except.error ConfigError.serverUrlScheme
  else if c.defaultTimeout < 60 ∨ 3600 < c.defaultTimeout then
    Except.error ConfigError.timeoutOutOfBounds
  else if c.defaultPollInterval < 5 ∨ 60 < c.defaultPollInterval then
    Except.error ConfigError.pollIntervalOutOfBounds
  else Except.ok ()

/-- File-layer merge of loadConfig: apply the first existing file when
there is one, otherwise keep the environment-derived defaults. -/
def mergeOptFile (c : CLIConfig) : Option FileConfig → CLIConfig
  | some f => mergeFileConfig c f
  | none => c

/-- The merged (not yet validated) configuration loadConfig builds:
environment-derived defaults, then the first existing config file, then
the four environment re-overrides. -/
def resolveConfig (env : Env) (saved : SavedCredentials) (file : Option FileConfig) : CLIConfig :=
  applyEnvOverrides env (mergeOptFile (getEnvConfig env saved) file)

/-- loadConfig (src/config/config.ts lines 337-372).  The file argument is
the parsed content of the first configuration file location that exists
and parses (the loop breaks at the first success), none when no file
loads. -/
def loadConfig (env : Env) (saved : SavedCredentials) (file : Option FileConfig) :
    Except ConfigError CLIConfig :=
  match validateConfig (resolveConfig env saved file) with
  | Except.ok _ => Except.ok (resolveConfig env saved file)
  | Except.error e => Except.error e

/-- Severity counts of a completed scan (result.results in
src/commands/scan.ts); all four tiers and the total are non-negative. -/
structure SeverityCounts where
  critical : Nat
  high : Nat
  medium : Nat
  low : Nat
  total : Nat
  deriving Repr, DecidableEq

/-- The numeric thresholds of the scan run CI decision: the four --max-...
options (the parseInt result, -1 when the option is left at its default)
and config.maxViolations. -/
structure ThresholdSet where
  maxCritical : Int
  maxHigh : Int
  maxMedium : Int
  maxLow : Int
  maxViolations : Option Int
  deriving Repr, DecidableEq

/-- Pass or fail decision of the threshold evaluation. -/
inductive Decision
  | PASS
  | FAIL
  deriving Repr, DecidableEq

/-- The legacy aggregate check of src/commands/scan.ts line 137: the JS
condition `config.maxViolations && total > config.maxViolations`, in which
a maxViolations of 0 is falsy and disables the rule. -/
def legacyMaxViolationsTrips (total : Nat) (mv : Option Int) : Bool :=
  match mv with
  | some m => decide (m ≠ 0 ∧ m < (total : Int))
  | none => false

/-- The CI/CD failure decision of scan run (src/commands/scan.ts lines
102-147): each per-severity threshold is enabled when ≥ 0 and trips when
the count reaches it; then the legacy aggregate check runs. -/
def evaluateThresholds (counts : SeverityCounts) (t : ThresholdSet) : Decision :=
  if 0 ≤ t.maxCritical ∧ t.maxCritical ≤ (counts.critical : Int) then Decision.FAIL
  else if 0 ≤ t.maxHigh ∧ t.maxHigh ≤ (counts.high : Int) then Decision.FAIL
  else if 0 ≤ t.maxMedium ∧ t.maxMedium ≤ (counts.medium : Int) then Decision.FAIL
  else if 0 ≤ t.maxLow ∧ t.maxLow ≤ (counts.low : Int) then Decision.FAIL
  else if legacyMaxViolationsTrips counts.total t.maxViolations then Decision.FAIL
  else Decision.PASS

/-- The failure condition exactly as claim C1 words it: a per-severity
threshold is enabled when its value is ≥ 0 and trips on count ≥ value; the
legacy rule trips whenever maxViolations is set at all and the total is
strictly greater. -/
def claimFailCondition (counts : SeverityCounts) (t : ThresholdSet) : Bool :=
  decide (0 ≤ t.maxCritical ∧ t.maxCritical ≤ (counts.critical : Int)) ||
  decide (0 ≤ t.maxHigh ∧ t.maxHigh ≤ (counts.high : Int)) ||
  decide (0 ≤ t.maxMedium ∧ t.maxMedium ≤ (counts.medium : Int)) ||
  decide (0 ≤ t.maxLow ∧ t.maxLow ≤ (counts.low : Int)) ||
  (match t.maxViolations with
   | some m => decide (m < (counts.total : Int))
   | none => false)

/-- Remote scan status as declared in src/types/api.ts. -/
inductive ScanStatus
  | PENDING
  | SCANNING
  | COMPLETED
  | FAILED
  deriving Repr, DecidableEq

/-- Result of one pollScanCompletion call: the number of status requests
issued and, for a completed scan, the elapsed whole seconds at the
successful check.  The errors the source throws on a FAILED status and on
deadline expiry become the failed and timedOut constructors. -/
inductive PollOutcome
  | completed (polls : Nat) (elapsedSeconds : Nat)
  | failed (polls : Nat)
  | timedOut (polls : Nat)
  deriving Repr, DecidableEq

/-- The while loop of pollScanCompletion (client-side-polling api client,
lines 239-277).  Network time is idealized to zero, so when the n-th
status request is about to be issued the elapsed wall clock is
n * intervalSeconds; the loop guard compares that elapsed time with the
deadline before each request.  statusAt n is the status the n-th request
observes.  The fuel argument only serves totality and is chosen large
enough that it cannot run out before the deadline does. -/
def pollGo (statusAt : Nat → ScanStatus) (timeoutSeconds intervalSeconds : Nat) :
    Nat → Nat → PollOutcome
  | 0, n => PollOutcome.timedOut n
  | fuel + 1, n =>
    if n * intervalSeconds < timeoutSeconds then
      match statusAt n with
      | ScanStatus.COMPLETED => PollOutcome.completed (n + 1) (n * intervalSeconds)
      | ScanStatus.FAILED => PollOutcome.failed (n + 1)
      | _ => pollGo statusAt timeoutSeconds intervalSeconds fuel (n + 1)
    else PollOutcome.timedOut n

/-- pollScanCompletion (client-side-polling api client, lines 226-278):
poll the status operation until a terminal status or until the wall-clock
deadline, with a constant interval. -/
def pollScanCompletion (statusAt : Nat → ScanStatus) (timeoutSeconds intervalSeconds : Nat) :
    PollOutcome :=
  pollGo statusAt timeoutSeconds intervalSeconds (timeoutSeconds + 1) 0

/-- The status sequence of claims C4 and C5 that stays non-terminal for
the first two polls and then reports FAILED. -/
def pendingScanningFailed : Nat → ScanStatus :=
  fun n => if n = 0 then ScanStatus.PENDING else if n = 1 then ScanStatus.SCANNING else ScanStatus.FAILED

/-- Options of CodeThreatApiClient.runScan (client-side-polling api
client, lines 161-173). -/
structure RunScanOptions where
  repositoryId : String
  organizationSlug : Option String := none
  branch : Option String := none
  scanTypes : List String := []
  wait : Bool := false
  timeout : Option Nat := none
  pollInterval : Option Nat := none
  scanTrigger : Option String := none
  pullRequestId : Option String := none
  commitSha : Option String := none
  deriving Repr, DecidableEq

/-- The JSON body CodeThreatApiClient.runScan posts to /api/v1/scans/run
(lines 178-192): wait is hard-coded false and timeout / pollInterval are
the fixed placeholders 1800 and 10 the backend validation requires. -/
structure ScanRunBody where
  repositoryId : String
  organizationSlug : String
  scanTypes : List String
  wait : Bool
  timeout : Nat
  pollInterval : Nat
  branch : Option String
  scanTrigger : Option String
  pullRequestId : Option String
  commitSha : Option String
  deriving Repr, DecidableEq

/-- Organization slug resolution (line 175): options.organizationSlug ||
config.organizationSlug || process.env.CT_ORG_SLUG || the empty string. -/
def resolveOrgSlug (optSlug cfgSlug envSlug : Option String) : String :=
  jsOrStr optSlug (jsOrStr cfgSlug (jsOrStr envSlug ""))

/-- The submission body built by CodeThreatApiClient.runScan; the
optional fields are included only when truthy (lines 188-192). -/
def buildScanRunBody (opts : RunScanOptions) (cfgSlug envSlug : Option String) : ScanRunBody :=
  { repositoryId := opts.repositoryId
    organizationSlug := resolveOrgSlug opts.organizationSlug cfgSlug envSlug
    scanTypes := opts.scanTypes
    wait := false
    timeout := 1800
    pollInterval := 10
    branch := jsOrOptStr opts.branch none
    scanTrigger := jsOrOptStr opts.scanTrigger none
    pullRequestId := jsOrOptStr opts.pullRequestId none
    commitSha := jsOrOptStr opts.commitSha none }

/-- Result of one CodeThreatApiClient.runScan call; thrown errors appear
as constructors.  missingOrg carries no request because the organization
check (line 195) runs before the POST (line 200). -/
inductive RunScanResult
  | missingOrg
  | noWait (body : ScanRunBody)
  | waited (body : ScanRunBody) (timeoutUsed intervalUsed : Nat) (outcome : PollOutcome)
  deriving Repr, DecidableEq

/-- CodeThreatApiClient.runScan (client-side-polling api client, lines
161-220): resolve the slug, fail before any request when it is empty,
otherwise post the body; when the caller asked to wait, poll client-side
with the fallbacks options.timeout || 43200 and options.pollInterval || 30
(lines 211-216). -/
def runScan (opts : RunScanOptions) (cfgSlug envSlug : Option String)
    (statusAt : Nat → ScanStatus) : RunScanResult :=
  let body := buildScanRunBody opts cfgSlug envSlug
  if body.organizationSlug = "" then RunScanResult.missingOrg
  else if opts.wait then
    RunScanResult.waited body (jsOrNat opts.timeout 43200) (jsOrNat opts.pollInterval 30)
      (pollScanCompletion statusAt (jsOrNat opts.timeout 43200) (jsOrNat opts.pollInterval 30))
  else RunScanResult.noWait body

/-- The submission requests a runScan call sends to the remote service. -/
def submittedBodies : RunScanResult → List ScanRunBody
  | RunScanResult.missingOrg => []
  | RunScanResult.noWait b => [b]
  | RunScanResult.waited b _ _ _ => [b]

/-- Options of the legacy runScan in src/lib/api-client.ts (lines
136-147); that variant has no organizationSlug parameter and posts the
options object itself as the request body. -/
structure LegacyRunScanOptions where
  repositoryId : String
  branch : Option String := none
  scanTypes : List String := []
  wait : Bool := false
  timeout : Option Nat := none
  pollInterval : Option Nat := none
  scanTrigger : Option String := none
  pullRequestId : Option String := none
  commitSha : Option String := none
  deriving Repr, DecidableEq

/-- The request the legacy runScan issues (src/lib/api-client.ts lines
148-154): the body is the options record verbatim, and the axios request
timeout in milliseconds follows line 152. -/
structure LegacyScanRunRequest where
  body : LegacyRunScanOptions
  requestTimeoutMs : Nat
  deriving Repr, DecidableEq

/-- The legacy runScan request construction (src/lib/api-client.ts lines
148-154). -/
def legacyRunScanRequest (opts : LegacyRunScanOptions) : LegacyScanRunRequest :=
  { body := opts
    requestTimeoutMs :=
      if opts.wait then (jsOrNat opts.timeout 1800) * 1000 + 30000 else 30000 }

/-- Message of each ConfigurationError thrown by validateConfig, with the
exact strings of src/config/config.ts lines 427-443. -/
def configErrorMessage : ConfigError → String
  | ConfigError.serverUrlRequired => "Server URL is required"
  | ConfigError.serverUrlScheme => "Server URL must start with http:// or https://"
  | ConfigError.timeoutOutOfBounds => "Default timeout must be between 60 and 3600 seconds"
  | ConfigError.pollIntervalOutOfBounds => "Default poll interval must be between 5 and 60 seconds"

/-- Message of the missing-organization error of runScan (line 196). -/
def missingOrgMessage : String :=
  "Organization slug is required. Please set CT_ORG_SLUG environment variable or provide organizationSlug parameter."

/-- Message of the error handleResponse throws on an unsuccessful remote
response (line 384): the server-supplied message, or the fixed fallback
when the server message is falsy. -/
def remoteServiceErrorMessage (serverMessage : Option String) : String :=
  jsOrStr serverMessage "API request failed"

/-- Message of the error thrown when a poll observes FAILED (line 264). -/
def scanFailedMessage : String := "Scan failed during execution"

/-- Message of the error thrown when the poll deadline passes (line 277),
a template literal over the timeout and the scan id. -/
def scanTimeoutMessage (timeoutSeconds : Nat) (scanId : String) : String :=
  "Scan timeout after " ++ (toString timeoutSeconds ++ (" seconds. Scan ID: " ++ scanId))

/-- A sample environment that sets all four re-overridden variables. -/
def envSampleC2 : Env :=
  { CT_SERVER_URL := some "https://example.test"
    CT_API_KEY := some "key-1"
    CT_ORG_ID := some "org-1"
    CT_VERBOSE := some "true" }

/-- A sample config file setting the two timing fields. -/
def fileSampleC2 : FileConfig :=
  { defaultTimeout := some 200
    defaultPollInterval := some 20 }

/-- The (empty) saved-credentials layer used with the samples. -/
def savedSampleC2 : SavedCredentials := {}

/-- The resolved configuration of the two samples. -/
def cfgSampleC2 : CLIConfig := resolveConfig envSampleC2 savedSampleC2 (some fileSampleC2)

/-- Sample waiting runScan options with an explicit slug. -/
def optsWaitC6 : RunScanOptions :=
  { repositoryId := "r-1", organizationSlug := some "org", wait := true }

/-- Sample runScan options with no slug source set. -/
def optsNoOrgC7 : RunScanOptions := { repositoryId := "r-2" }

/-- Sample waiting runScan options that omit timeout and pollInterval. -/
def optsWaitC10 : RunScanOptions :=
  { repositoryId := "r-3", organizationSlug := some "org-9", wait := true }

/-- Shared characterization of the threshold decision. -/
theorem evaluateThresholds_eq_fail_iff (counts : SeverityCounts) (t : ThresholdSet) :
    evaluateThresholds counts t = Decision.FAIL ↔
      ((0 ≤ t.maxCritical ∧ t.maxCritical ≤ (counts.critical : Int)) ∨
       (0 ≤ t.maxHigh ∧ t.maxHigh ≤ (counts.high : Int)) ∨
       (0 ≤ t.maxMedium ∧ t.maxMedium ≤ (counts.medium : Int)) ∨
       (0 ≤ t.maxLow ∧ t.maxLow ≤ (counts.low : Int)) ∨
       (∃ m, t.maxViolations = some m ∧ m ≠ 0 ∧ m < (counts.total : Int))) := by
  cases hmv : t.maxViolations with
  | none =>
      simp only [evaluateThresholds, legacyMaxViolationsTrips, hmv]
      split_ifs <;> simp_all
  | some m =>
      simp only [evaluateThresholds, legacyMaxViolationsTrips, hmv]
      split_ifs <;> simp_all

/-- One step of pollGo when the n-th poll begins before the deadline. -/
theorem pollGo_step (statusAt : Nat → ScanStatus) (T i fuel n : Nat)
    (h : n * i < T) :
    pollGo statusAt T i (fuel + 1) n =
      match statusAt n with
      | ScanStatus.COMPLETED => PollOutcome.completed (n + 1) (n * i)
      | ScanStatus.FAILED => PollOutcome.failed (n + 1)
      | _ => pollGo statusAt T i fuel (n + 1) := by
  simp only [pollGo, if_pos h]

/-- pollGo with a status stream that never turns terminal times out; every
issued poll begins strictly before the deadline and the final poll count
is the first index at or past it. -/
theorem pollGo_never_terminal (statusAt : Nat → ScanStatus) (T i : Nat)
    (hnt : ∀ k, statusAt k ≠ ScanStatus.COMPLETED ∧ statusAt k ≠ ScanStatus.FAILED) :
    ∀ fuel n, T ≤ n * i + fuel * i →
      ∃ p, pollGo statusAt T i fuel n = PollOutcome.timedOut p ∧ n ≤ p ∧ T ≤ p * i ∧
        ∀ k, n ≤ k → k < p → k * i < T := by
  intro fuel
  induction fuel with
  | zero =>
      intro n h
      refine ⟨n, rfl, le_refl n, ?_, ?_⟩
      · simpa using h
      · intro k h1 h2
        exact absurd h2 (by omega)
  | succ fuel ih =>
      intro n h
      by_cases hcond : n * i < T
      · have hstep : pollGo statusAt T i (fuel + 1) n = pollGo statusAt T i fuel (n + 1) := by
          obtain ⟨hc, hf⟩ := hnt n
          rw [pollGo_step statusAt T i fuel n hcond]
          cases hsn : statusAt n
          · rfl
          · rfl
          · exact absurd hsn hc
          · exact absurd hsn hf
        rw [hstep]
        have h2 : T ≤ (n + 1) * i + fuel * i := by
          rw [Nat.succ_mul] at h ⊢
          linarith
        obtain ⟨p, hp, hnp, hTp, hk⟩ := ih (n + 1) h2
        refine ⟨p, hp, by omega, hTp, ?_⟩
        intro k h1 h2k
        rcases Nat.eq_or_lt_of_le h1 with he | hl
        · rw [← he]
          exact hcond
        · exact hk k hl h2k
      · refine ⟨n, ?_, le_refl n, Nat.le_of_not_lt hcond, ?_⟩
        · simp only [pollGo]
          rw [if_neg hcond]
        · intro k h1 h2
          exact absurd h2 (by omega)

/-- C4: with interval 10 and timeout 25 against a never-terminal status
stream the loop issues exactly 3 polls, beginning at elapsed 0, 10 and 20
seconds, and times out without a 4th poll at 30; in general, against any
never-terminal stream, every issued poll k begins at elapsed
k * intervalSeconds strictly before the deadline (the interval is the
same constant for the life of the call) and the loop stops at the first
poll index at or past the deadline. -/
theorem pollScanCompletion_timeout_spec (statusAt : Nat → ScanStatus)
    (timeoutSeconds intervalSeconds : Nat) (hi : 1 ≤ intervalSeconds)
    (hnt : ∀ k, statusAt k ≠ ScanStatus.COMPLETED ∧ statusAt k ≠ ScanStatus.FAILED) :
    pollScanCompletion (fun _ => ScanStatus.PENDING) 25 10 = PollOutcome.timedOut 3 ∧
    ∃ p, pollScanCompletion statusAt timeoutSeconds intervalSeconds = PollOutcome.timedOut p ∧
      timeoutSeconds ≤ p * intervalSeconds ∧
      ∀ k, k < p → k * intervalSeconds < timeoutSeconds := by
  constructor
  · decide
  · have h1 : timeoutSeconds ≤ timeoutSeconds * intervalSeconds := by
      calc timeoutSeconds = timeoutSeconds * 1 := (Nat.mul_one _).symm
        _ ≤ timeoutSeconds * intervalSeconds := Nat.mul_le_mul_left _ hi
    have hfuel : timeoutSeconds ≤ 0 * intervalSeconds + (timeoutSeconds + 1) * intervalSeconds := by
      rw [Nat.zero_mul, Nat.succ_mul]
      linarith
    obtain ⟨p, hp, _, hTp, hk⟩ :=
      pollGo_never_terminal statusAt timeoutSeconds intervalSeconds hnt (timeoutSeconds + 1) 0 hfuel
    exact ⟨p, hp, hTp, fun k hkp => hk k (Nat.zero_le k) hkp⟩

/-- Witness for C4 at interval 7, timeout 30, constant SCANNING stream. -/
theorem pollScanCompletion_timeout_spec_witness :
    pollScanCompletion (fun _ => ScanStatus.PENDING) 25 10 = PollOutcome.timedOut 3 ∧
    ∃ p, pollScanCompletion (fun _ => ScanStatus.SCANNING) 30 7 = PollOutcome.timedOut p ∧
      30 ≤ p * 7 ∧ ∀ k, k < p → k * 7 < 30 :=
  pollScanCompletion_timeout_spec (fun _ => ScanStatus.SCANNING) 30 7 (by decide)
    (fun _ => ⟨(fun h => nomatch h), (fun h => nomatch h)⟩)

/-- Shared lemma: when the first FAILED status appears at poll index j and
all polls up to j begin before the deadline, the loop ends with exactly
j + 1 polls issued. -/
theorem pollGo_first_failed (statusAt : Nat → ScanStatus) (T i j : Nat)
    (hpre : ∀ k, k < j → statusAt k ≠ ScanStatus.COMPLETED ∧ statusAt k ≠ ScanStatus.FAILED)
    (hF : statusAt j = ScanStatus.FAILED)
    (hin : ∀ k, k ≤ j → k * i < T) :
    ∀ fuel n, n ≤ j → j - n < fuel →
      pollGo statusAt T i fuel n = PollOutcome.failed (j + 1) := by
  intro fuel
  induction fuel with
  | zero =>
      intro n hn h
      exact absurd h (by omega)
  | succ fuel ih =>
      intro n hn hfuel
      rw [pollGo_step statusAt T i fuel n (hin n hn)]
      by_cases hej : n = j
      · subst hej
        rw [hF]
      · have hlt : n < j := Nat.lt_of_le_of_ne hn hej
        obtain ⟨hc, hf⟩ := hpre n hlt
        cases hsn : statusAt n
        · exact ih (n + 1) (by omega) (by omega)
        · exact ih (n + 1) (by omega) (by omega)
        · exact absurd hsn hc
        · exact absurd hsn hf

/-- C5: against the status sequence PENDING, SCANNING, FAILED the loop
issues exactly 3 polls and ends with the failure outcome at the moment
FAILED is observed, issuing no further poll, whenever the three polls fit
before the deadline. -/
theorem pollScanCompletion_pendingScanningFailed (timeoutSeconds intervalSeconds : Nat)
    (hi : 1 ≤ intervalSeconds) (h2 : 2 * intervalSeconds < timeoutSeconds) :
    pollScanCompletion pendingScanningFailed timeoutSeconds intervalSeconds =
      PollOutcome.failed 3 :=
  pollGo_first_failed pendingScanningFailed timeoutSeconds intervalSeconds 2
    (fun k hk => by interval_cases k <;> exact ⟨by decide, by decide⟩)
    (by decide)
    (fun k hk => by interval_cases k <;> omega)
    (timeoutSeconds + 1) 0 (by omega) (by omega)

/-- Witness for C5 at the default poll parameters 43200 and 30. -/
theorem pollScanCompletion_pendingScanningFailed_witness :
    pollScanCompletion pendingScanningFailed 43200 30 = PollOutcome.failed 3 :=
  pollScanCompletion_pendingScanningFailed 43200 30 (by decide) (by decide)

/-- C1 is false as stated: with maxViolations set to 0 and one low finding
the claim condition fires (maxViolations is set and 1 > 0) yet the code
passes, because the guard config.maxViolations && ... treats 0 as falsy. -/
theorem evaluateThresholds_claim_counterexample :
    evaluateThresholds ⟨0, 0, 0, 1, 1⟩ ⟨-1, -1, -1, -1, some 0⟩ = Decision.PASS ∧
    claimFailCondition ⟨0, 0, 0, 1, 1⟩ ⟨-1, -1, -1, -1, some 0⟩ = true := by
  decide

/-- C1 (amended): the decision is FAIL iff an enabled per-severity
threshold trips (value ≥ 0 and count ≥ value) or maxViolations is set to a
non-zero value with total strictly greater; a threshold of -1 or an unset
maxViolations never trips, and the boundary cases of the claim follow. -/
theorem evaluateThresholds_fail_iff_amended (counts : SeverityCounts) (t : ThresholdSet) :
    evaluateThresholds counts t = Decision.FAIL ↔
      ((0 ≤ t.maxCritical ∧ t.maxCritical ≤ (counts.critical : Int)) ∨
       (0 ≤ t.maxHigh ∧ t.maxHigh ≤ (counts.high : Int)) ∨
       (0 ≤ t.maxMedium ∧ t.maxMedium ≤ (counts.medium : Int)) ∨
       (0 ≤ t.maxLow ∧ t.maxLow ≤ (counts.low : Int)) ∨
       (∃ m, t.maxViolations = some m ∧ m ≠ 0 ∧ m < (counts.total : Int))) :=
  evaluateThresholds_eq_fail_iff counts t

/-- C9: a per-severity threshold of 0 always yields FAIL, even when the
corresponding count is 0, for each of the four tiers. -/
theorem threshold_zero_always_fails (counts : SeverityCounts) (t : ThresholdSet)
    (h : t.maxCritical = 0 ∨ t.maxHigh = 0 ∨ t.maxMedium = 0 ∨ t.maxLow = 0) :
    evaluateThresholds counts t = Decision.FAIL := by
  rw [evaluateThresholds_eq_fail_iff]
  rcases h with h | h | h | h
  · exact Or.inl ⟨by omega, by omega⟩
  · exact Or.inr (Or.inl ⟨by omega, by omega⟩)
  · exact Or.inr (Or.inr (Or.inl ⟨by omega, by omega⟩))
  · exact Or.inr (Or.inr (Or.inr (Or.inl ⟨by omega, by omega⟩)))

/-- Witness for C9: threshold critical 0 with all counts 0 fails. -/
theorem threshold_zero_always_fails_witness :
    evaluateThresholds ⟨0, 0, 0, 0, 0⟩ ⟨0, -1, -1, -1, none⟩ = Decision.FAIL :=
  threshold_zero_always_fails ⟨0, 0, 0, 0, 0⟩ ⟨0, -1, -1, -1, none⟩ (Or.inl rfl)

/-- The apiKey override leaves the other tracked fields unchanged. -/
theorem envOverrideApiKey_preserves (env : Env) (c : CLIConfig) :
    (envOverrideApiKey env c).serverUrl = c.serverUrl ∧
    (envOverrideApiKey env c).organizationId = c.organizationId ∧
    (envOverrideApiKey env c).verbose = c.verbose ∧
    (envOverrideApiKey env c).defaultTimeout = c.defaultTimeout ∧
    (envOverrideApiKey env c).defaultPollInterval = c.defaultPollInterval := by
  unfold envOverrideApiKey
  split
  · split_ifs <;> exact ⟨rfl, rfl, rfl, rfl, rfl⟩
  · exact ⟨rfl, rfl, rfl, rfl, rfl⟩

/-- The serverUrl override leaves the other tracked fields unchanged. -/
theorem envOverrideServerUrl_preserves (env : Env) (c : CLIConfig) :
    (envOverrideServerUrl env c).apiKey = c.apiKey ∧
    (envOverrideServerUrl env c).organizationId = c.organizationId ∧
    (envOverrideServerUrl env c).verbose = c.verbose ∧
    (envOverrideServerUrl env c).defaultTimeout = c.defaultTimeout ∧
    (envOverrideServerUrl env c).defaultPollInterval = c.defaultPollInterval := by
  unfold envOverrideServerUrl
  split
  · split_ifs <;> exact ⟨rfl, rfl, rfl, rfl, rfl⟩
  · exact ⟨rfl, rfl, rfl, rfl, rfl⟩

/-- The organizationId override leaves the other tracked fields unchanged. -/
theorem envOverrideOrgId_preserves (env : Env) (c : CLIConfig) :
    (envOverrideOrgId env c).serverUrl = c.serverUrl ∧
    (envOverrideOrgId env c).apiKey = c.apiKey ∧
    (envOverrideOrgId env c).verbose = c.verbose ∧
    (envOverrideOrgId env c).defaultTimeout = c.defaultTimeout ∧
    (envOverrideOrgId env c).defaultPollInterval = c.defaultPollInterval := by
  unfold envOverrideOrgId
  split
  · split_ifs <;> exact ⟨rfl, rfl, rfl, rfl, rfl⟩
  · exact ⟨rfl, rfl, rfl, rfl, rfl⟩

/-- The verbose override leaves the other tracked fields unchanged. -/
theorem envOverrideVerbose_preserves (env : Env) (c : CLIConfig) :
    (envOverrideVerbose env c).serverUrl = c.serverUrl ∧
    (envOverrideVerbose env c).apiKey = c.apiKey ∧
    (envOverrideVerbose env c).organizationId = c.organizationId ∧
    (envOverrideVerbose env c).defaultTimeout = c.defaultTimeout ∧
    (envOverrideVerbose env c).defaultPollInterval = c.defaultPollInterval := by
  unfold envOverrideVerbose
  split_ifs <;> exact ⟨rfl, rfl, rfl, rfl, rfl⟩

/-- A truthy CT_SERVER_URL is written into the config. -/
theorem envOverrideServerUrl_sets (env : Env) (c : CLIConfig) (s : String)
    (hs : env.CT_SERVER_URL = some s) (hne : s ≠ "") :
    (envOverrideServerUrl env c).serverUrl = s := by
  unfold envOverrideServerUrl
  simp [hs, hne]

/-- A truthy CT_API_KEY is written into the config. -/
theorem envOverrideApiKey_sets (env : Env) (c : CLIConfig) (a : String)
    (ha : env.CT_API_KEY = some a) (hne : a ≠ "") :
    (envOverrideApiKey env c).apiKey = some a := by
  unfold envOverrideApiKey
  simp [ha, hne]

/-- A truthy CT_ORG_ID is written into the config. -/
theorem envOverrideOrgId_sets (env : Env) (c : CLIConfig) (o : String)
    (ho : env.CT_ORG_ID = some o) (hne : o ≠ "") :
    (envOverrideOrgId env c).organizationId = some o := by
  unfold envOverrideOrgId
  simp [ho, hne]

/-- CT_VERBOSE = true switches verbose on. -/
theorem envOverrideVerbose_sets (env : Env) (c : CLIConfig)
    (hv : env.CT_VERBOSE = some "true") :
    (envOverrideVerbose env c).verbose = true := by
  unfold envOverrideVerbose
  simp [hv]

/-- The apiKey override also leaves the eight remaining fields unchanged. -/
theorem envOverrideApiKey_keeps (env : Env) (c : CLIConfig) :
    (envOverrideApiKey env c).defaultScanTypes = c.defaultScanTypes ∧
    (envOverrideApiKey env c).defaultBranch = c.defaultBranch ∧
    (envOverrideApiKey env c).defaultFormat = c.defaultFormat ∧
    (envOverrideApiKey env c).outputDir = c.outputDir ∧
    (envOverrideApiKey env c).failOnHigh = c.failOnHigh ∧
    (envOverrideApiKey env c).failOnCritical = c.failOnCritical ∧
    (envOverrideApiKey env c).maxViolations = c.maxViolations ∧
    (envOverrideApiKey env c).colors = c.colors := by
  unfold envOverrideApiKey
  split
  · split_ifs <;> exact ⟨rfl, rfl, rfl, rfl, rfl, rfl, rfl, rfl⟩
  · exact ⟨rfl, rfl, rfl, rfl, rfl, rfl, rfl, rfl⟩

/-- The serverUrl override also leaves the eight remaining fields unchanged. -/
theorem envOverrideServerUrl_keeps (env : Env) (c : CLIConfig) :
    (envOverrideServerUrl env c).defaultScanTypes = c.defaultScanTypes ∧
    (envOverrideServerUrl env c).defaultBranch = c.defaultBranch ∧
    (envOverrideServerUrl env c).defaultFormat = c.defaultFormat ∧
    (envOverrideServerUrl env c).outputDir = c.outputDir ∧
    (envOverrideServerUrl env c).failOnHigh = c.failOnHigh ∧
    (envOverrideServerUrl env c).failOnCritical = c.failOnCritical ∧
    (envOverrideServerUrl env c).maxViolations = c.maxViolations ∧
    (envOverrideServerUrl env c).colors = c.colors := by
  unfold envOverrideServerUrl
  split
  · split_ifs <;> exact ⟨rfl, rfl, rfl, rfl, rfl, rfl, rfl, rfl⟩
  · exact ⟨rfl, rfl, rfl, rfl, rfl, rfl, rfl, rfl⟩

/-- The organizationId override also leaves the eight remaining fields
unchanged. -/
theorem envOverrideOrgId_keeps (env : Env) (c : CLIConfig) :
    (envOverrideOrgId env c).defaultScanTypes = c.defaultScanTypes ∧
    (envOverrideOrgId env c).defaultBranch = c.defaultBranch ∧
    (envOverrideOrgId env c).defaultFormat = c.defaultFormat ∧
    (envOverrideOrgId env c).outputDir = c.outputDir ∧
    (envOverrideOrgId env c).failOnHigh = c.failOnHigh ∧
    (envOverrideOrgId env c).failOnCritical = c.failOnCritical ∧
    (envOverrideOrgId env c).maxViolations = c.maxViolations ∧
    (envOverrideOrgId env c).colors = c.colors := by
  unfold envOverrideOrgId
  split
  · split_ifs <;> exact ⟨rfl, rfl, rfl, rfl, rfl, rfl, rfl, rfl⟩
  · exact ⟨rfl, rfl, rfl, rfl, rfl, rfl, rfl, rfl⟩

/-- The verbose override also leaves the eight remaining fields unchanged. -/
theorem envOverrideVerbose_keeps (env : Env) (c : CLIConfig) :
    (envOverrideVerbose env c).defaultScanTypes = c.defaultScanTypes ∧
    (envOverrideVerbose env c).defaultBranch = c.defaultBranch ∧
    (envOverrideVerbose env c).defaultFormat = c.defaultFormat ∧
    (envOverrideVerbose env c).outputDir = c.outputDir ∧
    (envOverrideVerbose env c).failOnHigh = c.failOnHigh ∧
    (envOverrideVerbose env c).failOnCritical = c.failOnCritical ∧
    (envOverrideVerbose env c).maxViolations = c.maxViolations ∧
    (envOverrideVerbose env c).colors = c.colors := by
  unfold envOverrideVerbose
  split_ifs <;> exact ⟨rfl, rfl, rfl, rfl, rfl, rfl, rfl, rfl⟩

/-- With CT_SERVER_URL unset or empty the serverUrl override is a no-op. -/
theorem envOverrideServerUrl_skips (env : Env) (c : CLIConfig)
    (h : jsOrStr env.CT_SERVER_URL "" = "") :
    (envOverrideServerUrl env c).serverUrl = c.serverUrl := by
  unfold envOverrideServerUrl
  cases hk : env.CT_SERVER_URL with
  | none => rfl
  | some u =>
      rw [hk] at h
      simp only [jsOrStr] at h
      have hu : u = "" := by
        by_cases he : u = ""
        · exact he
        · rw [if_neg he] at h
          exact absurd h he
      simp [hu]

/-- With CT_API_KEY unset or empty the apiKey override is a no-op. -/
theorem envOverrideApiKey_skips (env : Env) (c : CLIConfig)
    (h : jsOrStr env.CT_API_KEY "" = "") :
    (envOverrideApiKey env c).apiKey = c.apiKey := by
  unfold envOverrideApiKey
  cases hk : env.CT_API_KEY with
  | none => rfl
  | some u =>
      rw [hk] at h
      simp only [jsOrStr] at h
      have hu : u = "" := by
        by_cases he : u = ""
        · exact he
        · rw [if_neg he] at h
          exact absurd h he
      simp [hu]

/-- With CT_ORG_ID unset or empty the organizationId override is a no-op. -/
theorem envOverrideOrgId_skips (env : Env) (c : CLIConfig)
    (h : jsOrStr env.CT_ORG_ID "" = "") :
    (envOverrideOrgId env c).organizationId = c.organizationId := by
  unfold envOverrideOrgId
  cases hk : env.CT_ORG_ID with
  | none => rfl
  | some u =>
      rw [hk] at h
      simp only [jsOrStr] at h
      have hu : u = "" := by
        by_cases he : u = ""
        · exact he
        · rw [if_neg he] at h
          exact absurd h he
      simp [hu]

/-- With CT_VERBOSE anything but the string true the verbose override is a
no-op. -/
theorem envOverrideVerbose_skips (env : Env) (c : CLIConfig)
    (h : env.CT_VERBOSE ≠ some "true") :
    (envOverrideVerbose env c).verbose = c.verbose := by
  unfold envOverrideVerbose
  rw [if_neg (by simpa using h)]

/-- A successful loadConfig returns exactly the resolved merge, and that
merge passes validation. -/
theorem loadConfig_ok_resolve (env : Env) (saved : SavedCredentials) (file : Option FileConfig)
    (c : CLIConfig) (h : loadConfig env saved file = Except.ok c) :
    c = resolveConfig env saved file ∧
    validateConfig (resolveConfig env saved file) = Except.ok () := by
  cases hv : validateConfig (resolveConfig env saved file) with
  | ok val =>
      cases val
      simp only [loadConfig, hv, Except.ok.injEq] at h
      exact ⟨h.symm, rfl⟩
  | error e =>
      simp only [loadConfig, hv] at h
      exact Except.noConfusion h

/-- C2 is false as stated: with CT_TIMEOUT parsed as 120 and the first
existing config file setting defaultTimeout 300, loadConfig resolves
defaultTimeout to the file value 300, not the environment value 120 —
the environment feeds only the defaults layer for this field and the file
layer overrides it. -/
theorem loadConfig_env_file_counterexample :
    Except.map CLIConfig.defaultTimeout
        (loadConfig { CT_TIMEOUT := some 120 } {} (some { defaultTimeout := some 300 })) =
      Except.ok 300 ∧
    ({ CT_TIMEOUT := some 120 } : Env).CT_TIMEOUT = some 120 ∧
    ({ defaultTimeout := some 300 } : FileConfig).defaultTimeout = some 300 ∧
    (300 : Int) ≠ 120 := by
  refine ⟨rfl, rfl, rfl, by decide⟩

/-- C2 (amended): the environment wins over the first existing config
file only for apiKey, serverUrl, organizationId and, when CT_VERBOSE is
the string true, verbose; every other field the file sets keeps the file
value — the corresponding environment variable only feeds the defaults
layer below the file — and every field the file leaves unset falls
through to the prior (environment-derived defaults) layer, the four
re-applied fields doing so whenever their environment override does not
fire. -/
theorem loadConfig_precedence_amended (env : Env) (saved : SavedCredentials)
    (f : FileConfig) (c : CLIConfig) (h : loadConfig env saved (some f) = Except.ok c) :
    (∀ s, env.CT_SERVER_URL = some s → s ≠ "" → c.serverUrl = s) ∧
    (∀ a, env.CT_API_KEY = some a → a ≠ "" → c.apiKey = some a) ∧
    (∀ o, env.CT_ORG_ID = some o → o ≠ "" → c.organizationId = some o) ∧
    (env.CT_VERBOSE = some "true" → c.verbose = true) ∧
    (∀ t, f.defaultTimeout = some t → c.defaultTimeout = t) ∧
    (∀ i, f.defaultPollInterval = some i → c.defaultPollInterval = i) ∧
    (∀ v, f.defaultScanTypes = some v → c.defaultScanTypes = v) ∧
    (∀ v, f.defaultBranch = some v → c.defaultBranch = v) ∧
    (∀ v, f.defaultFormat = some v → c.defaultFormat = v) ∧
    (∀ v, f.outputDir = some v → c.outputDir = v) ∧
    (∀ v, f.failOnHigh = some v → c.failOnHigh = v) ∧
    (∀ v, f.failOnCritical = some v → c.failOnCritical = v) ∧
    (∀ v, f.maxViolations = some v → c.maxViolations = some v) ∧
    (∀ v, f.colors = some v → c.colors = v) ∧
    (f.serverUrl = none → jsOrStr env.CT_SERVER_URL "" = "" →
      c.serverUrl = (getEnvConfig env saved).serverUrl) ∧
    (f.apiKey = none → jsOrStr env.CT_API_KEY "" = "" →
      c.apiKey = (getEnvConfig env saved).apiKey) ∧
    (f.organizationId = none → jsOrStr env.CT_ORG_ID "" = "" →
      c.organizationId = (getEnvConfig env saved).organizationId) ∧
    (f.verbose = none → env.CT_VERBOSE ≠ some "true" →
      c.verbose = (getEnvConfig env saved).verbose) ∧
    (f.defaultScanTypes = none → c.defaultScanTypes = (getEnvConfig env saved).defaultScanTypes) ∧
    (f.defaultBranch = none → c.defaultBranch = (getEnvConfig env saved).defaultBranch) ∧
    (f.defaultTimeout = none → c.defaultTimeout = (getEnvConfig env saved).defaultTimeout) ∧
    (f.defaultPollInterval = none →
      c.defaultPollInterval = (getEnvConfig env saved).defaultPollInterval) ∧
    (f.defaultFormat = none → c.defaultFormat = (getEnvConfig env saved).defaultFormat) ∧
    (f.outputDir = none → c.outputDir = (getEnvConfig env saved).outputDir) ∧
    (f.failOnHigh = none → c.failOnHigh = (getEnvConfig env saved).failOnHigh) ∧
    (f.failOnCritical = none → c.failOnCritical = (getEnvConfig env saved).failOnCritical) ∧
    (f.maxViolations = none → c.maxViolations = (getEnvConfig env saved).maxViolations) ∧
    (f.colors = none → c.colors = (getEnvConfig env saved).colors) := by
  obtain ⟨hc, -⟩ := loadConfig_ok_resolve env saved (some f) c h
  subst hc
  unfold resolveConfig applyEnvOverrides
  refine ⟨?_, ?_, ?_, ?_, ?_, ?_, ?_, ?_, ?_, ?_, ?_, ?_, ?_, ?_, ?_, ?_, ?_, ?_, ?_, ?_,
    ?_, ?_, ?_, ?_, ?_, ?_, ?_, ?_⟩
  · intro s hs hne
    rw [(envOverrideVerbose_preserves env _).1, (envOverrideOrgId_preserves env _).1,
      envOverrideServerUrl_sets env _ s hs hne]
  · intro a ha hne
    rw [(envOverrideVerbose_preserves env _).2.1, (envOverrideOrgId_preserves env _).2.1,
      (envOverrideServerUrl_preserves env _).1, envOverrideApiKey_sets env _ a ha hne]
  · intro o ho hne
    rw [(envOverrideVerbose_preserves env _).2.2.1, envOverrideOrgId_sets env _ o ho hne]
  · intro hv
    rw [envOverrideVerbose_sets env _ hv]
  · intro t ht
    rw [(envOverrideVerbose_preserves env _).2.2.2.1, (envOverrideOrgId_preserves env _).2.2.2.1,
      (envOverrideServerUrl_preserves env _).2.2.2.1, (envOverrideApiKey_preserves env _).2.2.2.1]
    simp [mergeOptFile, mergeFileConfig, ht]
  · intro i hi
    rw [(envOverrideVerbose_preserves env _).2.2.2.2, (envOverrideOrgId_preserves env _).2.2.2.2,
      (envOverrideServerUrl_preserves env _).2.2.2.2, (envOverrideApiKey_preserves env _).2.2.2.2]
    simp [mergeOptFile, mergeFileConfig, hi]
  · intro v hv
    rw [(envOverrideVerbose_keeps env _).1, (envOverrideOrgId_keeps env _).1,
      (envOverrideServerUrl_keeps env _).1, (envOverrideApiKey_keeps env _).1]
    simp [mergeOptFile, mergeFileConfig, hv]
  · intro v hv
    rw [(envOverrideVerbose_keeps env _).2.1, (envOverrideOrgId_keeps env _).2.1,
      (envOverrideServerUrl_keeps env _).2.1, (envOverrideApiKey_keeps env _).2.1]
    simp [mergeOptFile, mergeFileConfig, hv]
  · intro v hv
    rw [(envOverrideVerbose_keeps env _).2.2.1, (envOverrideOrgId_keeps env _).2.2.1,
      (envOverrideServerUrl_keeps env _).2.2.1, (envOverrideApiKey_keeps env _).2.2.1]
    simp [mergeOptFile, mergeFileConfig, hv]
  · intro v hv
    rw [(envOverrideVerbose_keeps env _).2.2.2.1, (envOverrideOrgId_keeps env _).2.2.2.1,
      (envOverrideServerUrl_keeps env _).2.2.2.1, (envOverrideApiKey_keeps env _).2.2.2.1]
    simp [mergeOptFile, mergeFileConfig, hv]
  · intro v hv
    rw [(envOverrideVerbose_keeps env _).2.2.2.2.1, (envOverrideOrgId_keeps env _).2.2.2.2.1,
      (envOverrideServerUrl_keeps env _).2.2.2.2.1, (envOverrideApiKey_keeps env _).2.2.2.2.1]
    simp [mergeOptFile, mergeFileConfig, hv]
  · intro v hv
    rw [(envOverrideVerbose_keeps env _).2.2.2.2.2.1, (envOverrideOrgId_keeps env _).2.2.2.2.2.1,
      (envOverrideServerUrl_keeps env _).2.2.2.2.2.1,
      (envOverrideApiKey_keeps env _).2.2.2.2.2.1]
    simp [mergeOptFile, mergeFileConfig, hv]
  · intro v hv
    rw [(envOverrideVerbose_keeps env _).2.2.2.2.2.2.1,
      (envOverrideOrgId_keeps env _).2.2.2.2.2.2.1,
      (envOverrideServerUrl_keeps env _).2.2.2.2.2.2.1,
      (envOverrideApiKey_keeps env _).2.2.2.2.2.2.1]
    simp [mergeOptFile, mergeFileConfig, overrideOpt, hv]
  · intro v hv
    rw [(envOverrideVerbose_keeps env _).2.2.2.2.2.2.2,
      (envOverrideOrgId_keeps env _).2.2.2.2.2.2.2,
      (envOverrideServerUrl_keeps env _).2.2.2.2.2.2.2,
      (envOverrideApiKey_keeps env _).2.2.2.2.2.2.2]
    simp [mergeOptFile, mergeFileConfig, hv]
  · intro hn hskip
    rw [(envOverrideVerbose_preserves env _).1, (envOverrideOrgId_preserves env _).1,
      envOverrideServerUrl_skips env _ hskip, (envOverrideApiKey_preserves env _).1]
    simp [mergeOptFile, mergeFileConfig, hn]
  · intro hn hskip
    rw [(envOverrideVerbose_preserves env _).2.1, (envOverrideOrgId_preserves env _).2.1,
      (envOverrideServerUrl_preserves env _).1, envOverrideApiKey_skips env _ hskip]
    simp [mergeOptFile, mergeFileConfig, overrideOpt, hn]
  · intro hn hskip
    rw [(envOverrideVerbose_preserves env _).2.2.1, envOverrideOrgId_skips env _ hskip,
      (envOverrideServerUrl_preserves env _).2.1, (envOverrideApiKey_preserves env _).2.1]
    simp [mergeOptFile, mergeFileConfig, overrideOpt, hn]
  · intro hn hskip
    rw [envOverrideVerbose_skips env _ hskip, (envOverrideOrgId_preserves env _).2.2.1,
      (envOverrideServerUrl_preserves env _).2.2.1, (envOverrideApiKey_preserves env _).2.2.1]
    simp [mergeOptFile, mergeFileConfig, hn]
  · intro hn
    rw [(envOverrideVerbose_keeps env _).1, (envOverrideOrgId_keeps env _).1,
      (envOverrideServerUrl_keeps env _).1, (envOverrideApiKey_keeps env _).1]
    simp [mergeOptFile, mergeFileConfig, hn]
  · intro hn
    rw [(envOverrideVerbose_keeps env _).2.1, (envOverrideOrgId_keeps env _).2.1,
      (envOverrideServerUrl_keeps env _).2.1, (envOverrideApiKey_keeps env _).2.1]
    simp [mergeOptFile, mergeFileConfig, hn]
  · intro hn
    rw [(envOverrideVerbose_preserves env _).2.2.2.1, (envOverrideOrgId_preserves env _).2.2.2.1,
      (envOverrideServerUrl_preserves env _).2.2.2.1, (envOverrideApiKey_preserves env _).2.2.2.1]
    simp [mergeOptFile, mergeFileConfig, hn]
  · intro hn
    rw [(envOverrideVerbose_preserves env _).2.2.2.2, (envOverrideOrgId_preserves env _).2.2.2.2,
      (envOverrideServerUrl_preserves env _).2.2.2.2, (envOverrideApiKey_preserves env _).2.2.2.2]
    simp [mergeOptFile, mergeFileConfig, hn]
  · intro hn
    rw [(envOverrideVerbose_keeps env _).2.2.1, (envOverrideOrgId_keeps env _).2.2.1,
      (envOverrideServerUrl_keeps env _).2.2.1, (envOverrideApiKey_keeps env _).2.2.1]
    simp [mergeOptFile, mergeFileConfig, hn]
  · intro hn
    rw [(envOverrideVerbose_keeps env _).2.2.2.1, (envOverrideOrgId_keeps env _).2.2.2.1,
      (envOverrideServerUrl_keeps env _).2.2.2.1, (envOverrideApiKey_keeps env _).2.2.2.1]
    simp [mergeOptFile, mergeFileConfig, hn]
  · intro hn
    rw [(envOverrideVerbose_keeps env _).2.2.2.2.1, (envOverrideOrgId_keeps env _).2.2.2.2.1,
      (envOverrideServerUrl_keeps env _).2.2.2.2.1, (envOverrideApiKey_keeps env _).2.2.2.2.1]
    simp [mergeOptFile, mergeFileConfig, hn]
  · intro hn
    rw [(envOverrideVerbose_keeps env _).2.2.2.2.2.1, (envOverrideOrgId_keeps env _).2.2.2.2.2.1,
      (envOverrideServerUrl_keeps env _).2.2.2.2.2.1,
      (envOverrideApiKey_keeps env _).2.2.2.2.2.1]
    simp [mergeOptFile, mergeFileConfig, hn]
  · intro hn
    rw [(envOverrideVerbose_keeps env _).2.2.2.2.2.2.1,
      (envOverrideOrgId_keeps env _).2.2.2.2.2.2.1,
      (envOverrideServerUrl_keeps env _).2.2.2.2.2.2.1,
      (envOverrideApiKey_keeps env _).2.2.2.2.2.2.1]
    simp [mergeOptFile, mergeFileConfig, overrideOpt, hn]
  · intro hn
    rw [(envOverrideVerbose_keeps env _).2.2.2.2.2.2.2,
      (envOverrideOrgId_keeps env _).2.2.2.2.2.2.2,
      (envOverrideServerUrl_keeps env _).2.2.2.2.2.2.2,
      (envOverrideApiKey_keeps env _).2.2.2.2.2.2.2]
    simp [mergeOptFile, mergeFileConfig, hn]

/-- Witness for C2 (amended) on the sample environment and file. -/
theorem loadConfig_precedence_amended_witness :
    (∀ s, envSampleC2.CT_SERVER_URL = some s → s ≠ "" → cfgSampleC2.serverUrl = s) ∧
    (∀ a, envSampleC2.CT_API_KEY = some a → a ≠ "" → cfgSampleC2.apiKey = some a) ∧
    (∀ o, envSampleC2.CT_ORG_ID = some o → o ≠ "" → cfgSampleC2.organizationId = some o) ∧
    (envSampleC2.CT_VERBOSE = some "true" → cfgSampleC2.verbose = true) ∧
    (∀ t, fileSampleC2.defaultTimeout = some t → cfgSampleC2.defaultTimeout = t) ∧
    (∀ i, fileSampleC2.defaultPollInterval = some i → cfgSampleC2.defaultPollInterval = i) ∧
    (∀ v, fileSampleC2.defaultScanTypes = some v → cfgSampleC2.defaultScanTypes = v) ∧
    (∀ v, fileSampleC2.defaultBranch = some v → cfgSampleC2.defaultBranch = v) ∧
    (∀ v, fileSampleC2.defaultFormat = some v → cfgSampleC2.defaultFormat = v) ∧
    (∀ v, fileSampleC2.outputDir = some v → cfgSampleC2.outputDir = v) ∧
    (∀ v, fileSampleC2.failOnHigh = some v → cfgSampleC2.failOnHigh = v) ∧
    (∀ v, fileSampleC2.failOnCritical = some v → cfgSampleC2.failOnCritical = v) ∧
    (∀ v, fileSampleC2.maxViolations = some v → cfgSampleC2.maxViolations = some v) ∧
    (∀ v, fileSampleC2.colors = some v → cfgSampleC2.colors = v) ∧
    (fileSampleC2.serverUrl = none → jsOrStr envSampleC2.CT_SERVER_URL "" = "" →
      cfgSampleC2.serverUrl = (getEnvConfig envSampleC2 savedSampleC2).serverUrl) ∧
    (fileSampleC2.apiKey = none → jsOrStr envSampleC2.CT_API_KEY "" = "" →
      cfgSampleC2.apiKey = (getEnvConfig envSampleC2 savedSampleC2).apiKey) ∧
    (fileSampleC2.organizationId = none → jsOrStr envSampleC2.CT_ORG_ID "" = "" →
      cfgSampleC2.organizationId = (getEnvConfig envSampleC2 savedSampleC2).organizationId) ∧
    (fileSampleC2.verbose = none → envSampleC2.CT_VERBOSE ≠ some "true" →
      cfgSampleC2.verbose = (getEnvConfig envSampleC2 savedSampleC2).verbose) ∧
    (fileSampleC2.defaultScanTypes = none →
      cfgSampleC2.defaultScanTypes = (getEnvConfig envSampleC2 savedSampleC2).defaultScanTypes) ∧
    (fileSampleC2.defaultBranch = none →
      cfgSampleC2.defaultBranch = (getEnvConfig envSampleC2 savedSampleC2).defaultBranch) ∧
    (fileSampleC2.defaultTimeout = none →
      cfgSampleC2.defaultTimeout = (getEnvConfig envSampleC2 savedSampleC2).defaultTimeout) ∧
    (fileSampleC2.defaultPollInterval = none →
      cfgSampleC2.defaultPollInterval =
        (getEnvConfig envSampleC2 savedSampleC2).defaultPollInterval) ∧
    (fileSampleC2.defaultFormat = none →
      cfgSampleC2.defaultFormat = (getEnvConfig envSampleC2 savedSampleC2).defaultFormat) ∧
    (fileSampleC2.outputDir = none →
      cfgSampleC2.outputDir = (getEnvConfig envSampleC2 savedSampleC2).outputDir) ∧
    (fileSampleC2.failOnHigh = none →
      cfgSampleC2.failOnHigh = (getEnvConfig envSampleC2 savedSampleC2).failOnHigh) ∧
    (fileSampleC2.failOnCritical = none →
      cfgSampleC2.failOnCritical = (getEnvConfig envSampleC2 savedSampleC2).failOnCritical) ∧
    (fileSampleC2.maxViolations = none →
      cfgSampleC2.maxViolations = (getEnvConfig envSampleC2 savedSampleC2).maxViolations) ∧
    (fileSampleC2.colors = none →
      cfgSampleC2.colors = (getEnvConfig envSampleC2 savedSampleC2).colors) :=
  loadConfig_precedence_amended envSampleC2 savedSampleC2 fileSampleC2 cfgSampleC2 (by rfl)

/-- C3: validation succeeds exactly when serverUrl is non-empty and
scheme-prefixed and the two timing settings lie in their closed bounds
[60, 3600] and [5, 60]; defaultTimeout 59 or 3601 always errors; and a
configuration returned by loadConfig always passes validation, so any
violation fails resolution itself. -/
theorem validateConfig_bounds_spec :
    (∀ c : CLIConfig, validateConfig c = Except.ok () ↔
      (c.serverUrl ≠ "" ∧ strStartsWith c.serverUrl "http" = true ∧
       60 ≤ c.defaultTimeout ∧ c.defaultTimeout ≤ 3600 ∧
       5 ≤ c.defaultPollInterval ∧ c.defaultPollInterval ≤ 60)) ∧
    (∀ c : CLIConfig, (c.defaultTimeout = 59 ∨ c.defaultTimeout = 3601) →
      validateConfig c ≠ Except.ok ()) ∧
    (∀ env saved file c, loadConfig env saved file = Except.ok c →
      validateConfig c = Except.ok ()) := by
  refine ⟨?_, ?_, ?_⟩
  · intro c
    constructor
    · intro h
      unfold validateConfig at h
      split_ifs at h with h1 h2 h3 h4
      exact ⟨h1, by tauto, by omega, by omega, by omega, by omega⟩
    · rintro ⟨hs, hsw, ht1, ht2, hp1, hp2⟩
      unfold validateConfig
      rw [if_neg hs, if_neg (by simp [hsw]), if_neg (by omega), if_neg (by omega)]
  · intro c h
    unfold validateConfig
    split_ifs with h1 h2 h3 h4 <;> simp
    exact absurd h3 (by omega)
  · intro env saved file c h
    obtain ⟨hc, hvc⟩ := loadConfig_ok_resolve env saved file c h
    rw [hc]
    exact hvc

/-- The resolved organization slug is empty exactly when every source is
unset or empty. -/
theorem resolveOrgSlug_empty_iff (a b c : Option String) :
    resolveOrgSlug a b c = "" ↔
      (jsOrStr a "" = "" ∧ jsOrStr b "" = "" ∧ jsOrStr c "" = "") := by
  rcases a with _ | sa <;> rcases b with _ | sb <;> rcases c with _ | sc <;>
    simp [resolveOrgSlug, jsOrStr] <;> split_ifs <;> simp_all

/-- C6 is false as stated: the legacy runScan of src/lib/api-client.ts
posts its options record as the request body, so a call with wait true
sends wait = true to the service, not false. -/
theorem legacy_runScan_wait_counterexample :
    ((legacyRunScanRequest { repositoryId := "repo-1", wait := true }).body).wait = true := rfl

/-- C6 (amended): in the client-side-polling api client every submission
body runScan sends has wait = false regardless of the caller wait flag,
and a requested wait is honoured purely client-side by polling the status
operation after submission; the legacy src/lib/api-client.ts runScan
instead forwards the caller wait flag in its body. -/
theorem runScan_transport_wait_false (opts : RunScanOptions) (cfgSlug envSlug : Option String)
    (statusAt : Nat → ScanStatus) :
    (∀ b ∈ submittedBodies (runScan opts cfgSlug envSlug statusAt), b.wait = false) ∧
    (opts.wait = true → resolveOrgSlug opts.organizationSlug cfgSlug envSlug ≠ "" →
      runScan opts cfgSlug envSlug statusAt =
        RunScanResult.waited (buildScanRunBody opts cfgSlug envSlug)
          (jsOrNat opts.timeout 43200) (jsOrNat opts.pollInterval 30)
          (pollScanCompletion statusAt (jsOrNat opts.timeout 43200)
            (jsOrNat opts.pollInterval 30))) := by
  constructor
  · intro b hb
    simp only [runScan] at hb
    split_ifs at hb <;> simp [submittedBodies] at hb <;> rw [hb] <;> rfl
  · intro hw hslug
    simp only [runScan]
    rw [if_neg (by simpa [buildScanRunBody] using hslug), if_pos hw]

/-- Witness for C6 (amended) at wait = true with a present slug. -/
theorem runScan_transport_wait_false_witness :
    (∀ b ∈ submittedBodies (runScan optsWaitC6 none none (fun _ => ScanStatus.COMPLETED)),
      b.wait = false) ∧
    (optsWaitC6.wait = true →
      resolveOrgSlug optsWaitC6.organizationSlug none none ≠ "" →
      runScan optsWaitC6 none none (fun _ => ScanStatus.COMPLETED) =
        RunScanResult.waited (buildScanRunBody optsWaitC6 none none)
          (jsOrNat optsWaitC6.timeout 43200) (jsOrNat optsWaitC6.pollInterval 30)
          (pollScanCompletion (fun _ => ScanStatus.COMPLETED)
            (jsOrNat optsWaitC6.timeout 43200) (jsOrNat optsWaitC6.pollInterval 30))) :=
  runScan_transport_wait_false optsWaitC6 none none (fun _ => ScanStatus.COMPLETED)

/-- C7: when the organization slug resolves to the empty value from the
call argument, the configuration and CT_ORG_SLUG alike, runScan returns
the missing-organization failure and submits nothing, so no scan is
created; when any source is non-empty the submission proceeds. -/
theorem runScan_missing_org_spec (opts : RunScanOptions) (cfgSlug envSlug : Option String)
    (statusAt : Nat → ScanStatus) :
    ((jsOrStr opts.organizationSlug "" = "" ∧ jsOrStr cfgSlug "" = "" ∧
        jsOrStr envSlug "" = "") →
      runScan opts cfgSlug envSlug statusAt = RunScanResult.missingOrg ∧
      submittedBodies (runScan opts cfgSlug envSlug statusAt) = []) ∧
    ((jsOrStr opts.organizationSlug "" ≠ "" ∨ jsOrStr cfgSlug "" ≠ "" ∨
        jsOrStr envSlug "" ≠ "") →
      runScan opts cfgSlug envSlug statusAt ≠ RunScanResult.missingOrg ∧
      submittedBodies (runScan opts cfgSlug envSlug statusAt) ≠ []) := by
  constructor
  · rintro ⟨h1, h2, h3⟩
    have hs : (buildScanRunBody opts cfgSlug envSlug).organizationSlug = "" := by
      show resolveOrgSlug opts.organizationSlug cfgSlug envSlug = ""
      exact (resolveOrgSlug_empty_iff _ _ _).mpr ⟨h1, h2, h3⟩
    have hrun : runScan opts cfgSlug envSlug statusAt = RunScanResult.missingOrg := by
      simp only [runScan]
      rw [if_pos hs]
    exact ⟨hrun, by rw [hrun]; rfl⟩
  · intro hor
    have hs : ¬ (buildScanRunBody opts cfgSlug envSlug).organizationSlug = "" := by
      show ¬ resolveOrgSlug opts.organizationSlug cfgSlug envSlug = ""
      intro he
      obtain ⟨g1, g2, g3⟩ := (resolveOrgSlug_empty_iff _ _ _).mp he
      tauto
    simp only [runScan]
    rw [if_neg hs]
    by_cases hw : opts.wait
    · rw [if_pos hw]
      exact ⟨(fun h => nomatch h), (fun h => nomatch h)⟩
    · rw [if_neg hw]
      exact ⟨(fun h => nomatch h), (fun h => nomatch h)⟩

/-- Witness for C7 with all sources empty. -/
theorem runScan_missing_org_spec_witness :
    runScan optsNoOrgC7 (some "") none (fun _ => ScanStatus.PENDING) =
      RunScanResult.missingOrg ∧
    submittedBodies (runScan optsNoOrgC7 (some "") none (fun _ => ScanStatus.PENDING)) = [] :=
  (runScan_missing_org_spec optsNoOrgC7 (some "") none
    (fun _ => ScanStatus.PENDING)).1 ⟨rfl, rfl, rfl⟩

/-- C10: with wait requested and timeout / pollInterval omitted, the poll
loop runs with the hard-coded fallbacks 43200 seconds and 30 seconds —
independent of the configuration defaults, which are never consulted —
and a defaultTimeout of 43200 is outside the resolver validation ceiling
of 3600, so validation always rejects it. -/
theorem runScan_default_poll_params (opts : RunScanOptions) (cfgSlug envSlug : Option String)
    (statusAt : Nat → ScanStatus) (hw : opts.wait = true)
    (ht : opts.timeout = none) (hp : opts.pollInterval = none) :
    (resolveOrgSlug opts.organizationSlug cfgSlug envSlug ≠ "" →
      runScan opts cfgSlug envSlug statusAt =
        RunScanResult.waited (buildScanRunBody opts cfgSlug envSlug) 43200 30
          (pollScanCompletion statusAt 43200 30)) ∧
    (∀ c : CLIConfig, c.defaultTimeout = 43200 → validateConfig c ≠ Except.ok ()) := by
  constructor
  · intro hslug
    simp only [runScan]
    rw [if_neg (by simpa [buildScanRunBody] using hslug), if_pos hw, ht, hp]
    rfl
  · intro c hc
    unfold validateConfig
    split_ifs with h1 h2 h3 h4 <;> simp
    exact absurd (Or.inr (by rw [hc]; decide)) h3

/-- Witness for C10 at a concrete waiting call with omitted timing. -/
theorem runScan_default_poll_params_witness :
    (resolveOrgSlug optsWaitC10.organizationSlug none none ≠ "" →
      runScan optsWaitC10 none none (fun _ => ScanStatus.SCANNING) =
        RunScanResult.waited (buildScanRunBody optsWaitC10 none none)
          43200 30 (pollScanCompletion (fun _ => ScanStatus.SCANNING) 43200 30)) ∧
    (∀ c : CLIConfig, c.defaultTimeout = 43200 → validateConfig c ≠ Except.ok ()) :=
  runScan_default_poll_params optsWaitC10 none none (fun _ => ScanStatus.SCANNING) rfl rfl rfl

/-- A string beginning with p differs from any string whose first
characters do not spell p. -/
theorem append_ne_of_take_ne (p l t : String)
    (h : t.data.take p.data.length ≠ p.data) : p ++ l ≠ t := by
  intro he
  apply h
  rw [← he]
  show ((p ++ l).data).take p.data.length = p.data
  have hd : (p ++ l).data = p.data ++ l.data := rfl
  rw [hd, List.take_left]

/-- C8 is false as stated: a RemoteServiceError whose server-supplied
message equals the ScanFailedError text yields an Error carrying exactly
the same message, and the catch handler of src/commands/scan.ts lines
153-157 observes only that message (every kind is a plain Error), so the
two kinds are not distinguishable by the caller. -/
theorem remote_error_message_collision :
    remoteServiceErrorMessage (some "Scan failed during execution") = scanFailedMessage := rfl

/-- C8 (amended): the fixed-message kinds — ConfigurationError,
MissingOrganizationError, ScanFailedError and ScanTimeoutError — carry
pairwise distinct messages for all parameter values, so the caller can
map each of them to its own exit code; only RemoteServiceError, whose
message is server-controlled, can collide with another kind. -/
theorem fixed_error_messages_pairwise_distinct (e : ConfigError) (t : Nat) (id : String) :
    configErrorMessage e ≠ missingOrgMessage ∧
    configErrorMessage e ≠ scanFailedMessage ∧
    configErrorMessage e ≠ scanTimeoutMessage t id ∧
    missingOrgMessage ≠ scanFailedMessage ∧
    missingOrgMessage ≠ scanTimeoutMessage t id ∧
    scanFailedMessage ≠ scanTimeoutMessage t id := by
  refine ⟨?_, ?_, ?_, by decide, ?_, ?_⟩
  · cases e <;> decide
  · cases e <;> decide
  · cases e <;> exact fun he => append_ne_of_take_ne _ _ _ (by decide) he.symm
  · exact fun he => append_ne_of_take_ne _ _ _ (by decide) he.symm
  · exact fun he => append_ne_of_take_ne _ _ _ (by decide) he.symm

/-- Witness for C1 (amended) at the claim boundary counts. -/
theorem evaluateThresholds_fail_iff_amended_witness :
    evaluateThresholds ⟨5, 0, 0, 0, 5⟩ ⟨5, -1, -1, -1, none⟩ = Decision.FAIL ↔
      ((0 ≤ (5 : Int) ∧ (5 : Int) ≤ ((5 : Nat) : Int)) ∨
       (0 ≤ (-1 : Int) ∧ (-1 : Int) ≤ ((0 : Nat) : Int)) ∨
       (0 ≤ (-1 : Int) ∧ (-1 : Int) ≤ ((0 : Nat) : Int)) ∨
       (0 ≤ (-1 : Int) ∧ (-1 : Int) ≤ ((0 : Nat) : Int)) ∨
       (∃ m, (none : Option Int) = some m ∧ m ≠ 0 ∧ m < ((5 : Nat) : Int))) :=
  evaluateThresholds_fail_iff_amended ⟨5, 0, 0, 0, 5⟩ ⟨5, -1, -1, -1, none⟩

/-- Witness for C8 (amended) at concrete parameters. -/
theorem fixed_error_messages_pairwise_distinct_witness :
    configErrorMessage ConfigError.serverUrlRequired ≠ missingOrgMessage ∧
    configErrorMessage ConfigError.serverUrlRequired ≠ scanFailedMessage ∧
    configErrorMessage ConfigError.serverUrlRequired ≠ scanTimeoutMessage 100 "scan-1" ∧
    missingOrgMessage ≠ scanFailedMessage ∧
    missingOrgMessage ≠ scanTimeoutMessage 100 "scan-1" ∧
    scanFailedMessage ≠ scanTimeoutMessage 100 "scan-1" :=
  fixed_error_messages_pairwise_distinct ConfigError.serverUrlRequired 100 "scan-1"
